import Mathlib

/-!
Shallow embedding of the pico-serprog firmware core (src/main.c) and proofs
about its serprog command handling.

The transport (tud_cdc read/write) is modelled as byte streams: an input
stream `inp : Nat → Nat` consumed at a cursor position (each byte taken
mod 256, mirroring uint8), and handler results carry the list of bytes
written to the host.  SPI input data (MISO) is a second stream `spiIn`.
The SPI peripheral's baud-rate divider (`spi_set_baudrate`, SDK code) is a
parameter `setBaud`.  GPIO pads are a map from pin number to a pin record.
-/

namespace PicoSerprog

/-- Modelled from the spec: serprog.h is not under src/; these are the
standard serprog protocol byte values the spec requires for
interoperability with host tools (ACK = 0x06, NAK = 0x15). -/
def S_ACK : Nat := 0x06

/-- Modelled from the spec: standard serprog negative-acknowledge byte. -/
def S_NAK : Nat := 0x15

/-- Modelled from the spec: standard serprog command byte values
(serprog.h is not under src/). -/
def S_CMD_NOP : Nat := 0x00

def S_CMD_Q_IFACE : Nat := 0x01

def S_CMD_Q_CMDMAP : Nat := 0x02

def S_CMD_Q_PGMNAME : Nat := 0x03

def S_CMD_Q_SERBUF : Nat := 0x04

def S_CMD_Q_BUSTYPE : Nat := 0x05

def S_CMD_SYNCNOP : Nat := 0x10

def S_CMD_S_BUSTYPE : Nat := 0x12

def S_CMD_O_SPIOP : Nat := 0x13

def S_CMD_S_SPI_FREQ : Nat := 0x14

def S_CMD_S_PIN_STATE : Nat := 0x15

def S_CMD_S_SPI_CS : Nat := 0x16

/-- main.c line 24: the default chip-select pin. -/
def SPI_CS_0 : Nat := 5

/-- main.c line 31: number of usable chip selects. -/
def NUM_CS_AVAILABLE : Nat := 4

def SPI_MISO : Nat := 4

def SPI_MOSI : Nat := 3

def SPI_SCK : Nat := 2

/-- Pin multiplexer function (GPIO_FUNC_SIO / GPIO_FUNC_SPI). -/
inductive GpioFunc where
  | sio : GpioFunc
  | spi : GpioFunc
deriving DecidableEq

/-- Pin direction. -/
inductive GpioDir where
  | dIn : GpioDir
  | dOut : GpioDir
deriving DecidableEq

/-- Configuration of one GPIO pad: function, direction, output latch,
pulls and drive strength (mA). -/
structure Pin where
  func : GpioFunc
  dir : GpioDir
  value : Bool
  pullUp : Bool
  pullDown : Bool
  drive : Nat
deriving DecidableEq

/-- Update the configuration of one pin in a GPIO map. -/
def gpioUpdate (g : Nat → Pin) (p : Nat) (f : Pin → Pin) : Nat → Pin :=
  fun q => if q = p then f (g q) else g q

/-- Modelled from the spec: GPIO collaborator, set the output latch. -/
def gpio_put (g : Nat → Pin) (p : Nat) (v : Bool) : Nat → Pin :=
  gpioUpdate g p (fun x => { x with value := v })

/-- Modelled from the spec: GPIO collaborator, set the pin direction. -/
def gpio_set_dir (g : Nat → Pin) (p : Nat) (d : GpioDir) : Nat → Pin :=
  gpioUpdate g p (fun x => { x with dir := d })

/-- Modelled from the spec: GPIO collaborator, enable the pull-up
(and clear the pull-down). -/
def gpio_pull_up (g : Nat → Pin) (p : Nat) : Nat → Pin :=
  gpioUpdate g p (fun x => { x with pullUp := true, pullDown := false })

/-- Modelled from the spec: GPIO collaborator, set both pulls. -/
def gpio_set_pulls (g : Nat → Pin) (p : Nat) (u d : Bool) : Nat → Pin :=
  gpioUpdate g p (fun x => { x with pullUp := u, pullDown := d })

/-- Modelled from the spec: GPIO collaborator, select the pad function. -/
def gpio_set_function (g : Nat → Pin) (p : Nat) (f : GpioFunc) : Nat → Pin :=
  gpioUpdate g p (fun x => { x with func := f })

/-- Modelled from the spec: GPIO collaborator, set drive strength in mA. -/
def gpio_set_drive_strength (g : Nat → Pin) (p : Nat) (n : Nat) : Nat → Pin :=
  gpioUpdate g p (fun x => { x with drive := n })

/-- Modelled from the spec: SDK gpio_init — SIO function, input direction,
output latch low (pulls are left as they were). -/
def gpio_init (g : Nat → Pin) (p : Nat) : Nat → Pin :=
  gpioUpdate g p (fun x => { x with dir := GpioDir.dIn, value := false, func := GpioFunc.sio })

/-- main.c lines 54-58: drive a chip-select line high as a strong output. -/
def use_cs (g : Nat → Pin) (p : Nat) : Nat → Pin :=
  gpio_set_drive_strength (gpio_set_dir (gpio_put g p true) p GpioDir.dOut) p 12

/-- main.c lines 60-63: make a chip-select line a pulled-up input. -/
def pullup_cs (g : Nat → Pin) (p : Nat) : Nat → Pin :=
  gpio_pull_up (gpio_set_dir g p GpioDir.dIn) p

/-- main.c lines 93-96: return a pin to a neutral input with pulls off. -/
def disable_pin (g : Nat → Pin) (p : Nat) : Nat → Pin :=
  gpio_set_pulls (gpio_init g p) p false false

/-- Session state: the firmware's globals (main.c lines 29-33) plus the
GPIO pad configuration. -/
structure State where
  spi_enabled : Nat
  cs_pin : Nat
  baud : Nat
  gpio : Nat → Pin

/-- The for loop bounds of main.c line 73: pins SPI_CS_0+1 .. SPI_CS_0+3. -/
def csOtherPins : List Nat := List.range' (SPI_CS_0 + 1) (NUM_CS_AVAILABLE - 1)

/-- main.c lines 65-91, enable_spi: pull up the non-default candidate
chip-select lines (the loop always starts at SPI_CS_0+1), drive `cs_pin`
high as an output, hand the three SPI signals to the peripheral with
strong drive, and set the enabled flag.  (The LED setup and the PL022
spi_init call have no effect on the modelled state: spi_init's achieved
baud rate is discarded by the source.) -/
def enable_spi (s : State) : State :=
  let g0 := csOtherPins.foldl (fun g i => pullup_cs (gpio_init g i) i) s.gpio
  let g1 := use_cs (gpio_init g0 s.cs_pin) s.cs_pin
  let g2 := gpio_set_function g1 SPI_MISO GpioFunc.spi
  let g3 := gpio_set_function g2 SPI_MOSI GpioFunc.spi
  let g4 := gpio_set_function g3 SPI_SCK GpioFunc.spi
  let g5 := gpio_set_drive_strength g4 SPI_MISO 12
  let g6 := gpio_set_drive_strength g5 SPI_MOSI 12
  let g7 := gpio_set_drive_strength g6 SPI_SCK 12
  { s with gpio := g7, spi_enabled := 1 }

/-- main.c lines 98-109, disable_spi: neutralize all candidate chip-select
lines and the SPI signals, clear the enabled flag. -/
def disable_spi (s : State) : State :=
  let g0 := (List.range NUM_CS_AVAILABLE).foldl (fun g i => disable_pin g (SPI_CS_0 + i)) s.gpio
  let g1 := disable_pin g0 SPI_MISO
  let g2 := disable_pin g1 SPI_MOSI
  let g3 := disable_pin g2 SPI_SCK
  { s with gpio := g3, spi_enabled := 0 }

/-- Little-endian 24-bit value of three stream bytes (each byte mod 256,
mirroring uint8). -/
def le24 (inp : Nat → Nat) (pos : Nat) : Nat :=
  inp pos % 256 + 256 * (inp (pos + 1) % 256) + 65536 * (inp (pos + 2) % 256)

/-- Little-endian 32-bit value of four stream bytes. -/
def le32 (inp : Nat → Nat) (pos : Nat) : Nat :=
  le24 inp pos + 16777216 * (inp (pos + 3) % 256)

/-- The four little-endian bytes of a uint32, as sent by
sendbytes_blocking(&x, 4). -/
def le32Bytes (n : Nat) : List Nat :=
  [n % 256, n / 256 % 256, n / 65536 % 256, n / 16777216 % 256]

/-- main.c lines 177-179: readbytes_blocking(&len, 3) fills only the low
three bytes of an UNINITIALIZED uint32 (declared at line 177 without an
initializer), so byte 3 keeps the indeterminate stack value `uninit`. -/
def read3IntoUninit (uninit : Nat) (inp : Nat → Nat) (pos : Nat) : Nat :=
  le24 inp pos + uninit % 4294967296 / 16777216 * 16777216

/-- main.c lines 183-188: the write phase of s_cmd_o_spiop.  Consumes
`wlen` bytes from the host stream in chunks of at most 4096 (sizeof buf)
and forwards them to the SPI peripheral.  Returns the final stream
position and the bytes written to the bus. -/
def spiWritePhase (inp : Nat → Nat) (pos wlen : Nat) : Nat × List Nat :=
  if h : wlen = 0 then (pos, [])
  else
    ((spiWritePhase inp (pos + min wlen 4096) (wlen - min wlen 4096)).1,
     (List.range (min wlen 4096)).map (fun k => inp (pos + k) % 256) ++
       (spiWritePhase inp (pos + min wlen 4096) (wlen - min wlen 4096)).2)
termination_by wlen
decreasing_by
  all_goals omega

/-- main.c lines 192-197: the read phase of s_cmd_o_spiop.  Reads `rlen`
bytes from the SPI peripheral in chunks of at most 4096 and forwards them
to the host.  Returns the final SPI-stream position and the bytes sent. -/
def spiReadPhase (spiIn : Nat → Nat) (spos rlen : Nat) : Nat × List Nat :=
  if h : rlen = 0 then (spos, [])
  else
    ((spiReadPhase spiIn (spos + min rlen 4096) (rlen - min rlen 4096)).1,
     (List.range (min rlen 4096)).map (fun k => spiIn (spos + k) % 256) ++
       (spiReadPhase spiIn (spos + min rlen 4096) (rlen - min rlen 4096)).2)
termination_by rlen
decreasing_by
  all_goals omega

/-- main.c lines 175-200, s_cmd_o_spiop.  `residW`/`residR` are the
indeterminate initial values of the uninitialized uint32 variables wlen
and rlen.  Result: (new state, input position, SPI-stream position,
bytes sent to the host, bytes written to the SPI bus).  cs_select drives
the active chip-select low before the write phase; cs_deselect drives it
high again after the read phase; the ACK is sent between the phases. -/
def s_cmd_o_spiop (residW residR : Nat) (spiIn : Nat → Nat) (s : State)
    (inp : Nat → Nat) (pos spos : Nat) :
    State × Nat × Nat × List Nat × List Nat :=
  let wlen := read3IntoUninit residW inp pos
  let rlen := read3IntoUninit residR inp (pos + 3)
  let s1 : State := { s with gpio := gpio_put s.gpio s.cs_pin false }
  let w := spiWritePhase inp (pos + 6) wlen
  let r := spiReadPhase spiIn spos rlen
  let s2 : State := { s1 with gpio := gpio_put s1.gpio s1.cs_pin true }
  (s2, w.1, r.1, S_ACK :: r.2, w.2)

/-- main.c lines 166-173, s_cmd_s_bustype: ACK iff the SPI bit (1 << 3)
is in the requested mask. -/
def s_cmd_s_bustype (s : State) (inp : Nat → Nat) (pos : Nat) :
    State × Nat × List Nat :=
  (s, pos + 1, if inp pos % 256 &&& (1 <<< 3) ≠ 0 then [S_ACK] else [S_NAK])

/-- main.c lines 202-215, s_cmd_s_spi_freq: read a 4-byte little-endian
requested frequency; zero is reserved and NAKed; otherwise store the
achieved rate returned by the SDK divider `setBaud` (a uint, hence
mod 2^32) and send ACK plus its four bytes. -/
def s_cmd_s_spi_freq (setBaud : Nat → Nat) (s : State) (inp : Nat → Nat)
    (pos : Nat) : State × Nat × List Nat :=
  if le32 inp pos ≠ 0 then
    ({ s with baud := setBaud (le32 inp pos) % 4294967296 }, pos + 4,
     S_ACK :: le32Bytes (setBaud (le32 inp pos) % 4294967296))
  else
    (s, pos + 4, [S_NAK])

/-- main.c lines 217-223, s_cmd_s_pin_state: nonzero byte enables the
bus, zero disables it; always ACK. -/
def s_cmd_s_pin_state (s : State) (inp : Nat → Nat) (pos : Nat) :
    State × Nat × List Nat :=
  ((if inp pos % 256 ≠ 0 then enable_spi s else disable_spi s), pos + 1, [S_ACK])

/-- main.c lines 225-240, s_cmd_s_spi_cs.  The `return` at line 229 is
NOT guarded by the `if` at line 227 (which has no braces and covers only
the sendbyte at line 228), so it runs unconditionally: an out-of-range
index is NAKed, and for a valid index nothing is sent at all.  Lines
231-239 (the cs_pin update and the ACK) are unreachable dead code. -/
def s_cmd_s_spi_cs (s : State) (inp : Nat → Nat) (pos : Nat) :
    State × Nat × List Nat :=
  (s, pos + 1, if NUM_CS_AVAILABLE ≤ inp pos % 256 then [S_NAK] else [])

/-- main.c line 35: progname = "pico-serprog", 16 bytes, null padded. -/
def prognameBytes : List Nat :=
  [112, 105, 99, 111, 45, 115, 101, 114, 112, 114, 111, 103, 0, 0, 0, 0]

/-- main.c lines 38-51: the command map, eight uint32 words; elements
1..7 have no initializer and are zero. -/
def cmdmapWords : List Nat :=
  [(1 <<< S_CMD_NOP) ||| (1 <<< S_CMD_Q_IFACE) ||| (1 <<< S_CMD_Q_CMDMAP) |||
   (1 <<< S_CMD_Q_PGMNAME) ||| (1 <<< S_CMD_Q_SERBUF) ||| (1 <<< S_CMD_Q_BUSTYPE) |||
   (1 <<< S_CMD_SYNCNOP) ||| (1 <<< S_CMD_O_SPIOP) ||| (1 <<< S_CMD_S_BUSTYPE) |||
   (1 <<< S_CMD_S_SPI_FREQ) ||| (1 <<< S_CMD_S_PIN_STATE) ||| (1 <<< S_CMD_S_SPI_CS),
   0, 0, 0, 0, 0, 0, 0]

/-- The 32 bytes sent by the Q_CMDMAP handler: the words of cmdmap laid
out little-endian, exactly as sendbytes_blocking((uint8_t *)cmdmap, 32)
transmits them. -/
def cmdmapBytes : List Nat := (cmdmapWords.map le32Bytes).flatten

/-- Bit `c` of the serialized capability bitmap: bit (c mod 8) of byte
(c / 8). -/
def cmdmapBit (c : Nat) : Bool := (cmdmapBytes.getD (c / 8) 0).testBit (c % 8)

/-- The command bytes for which the switch in command_loop (main.c lines
249-296) has a case, i.e. does not fall through to the default NAK. -/
def handledCmds : List Nat :=
  [S_CMD_NOP, S_CMD_Q_IFACE, S_CMD_Q_CMDMAP, S_CMD_Q_PGMNAME, S_CMD_Q_SERBUF,
   S_CMD_Q_BUSTYPE, S_CMD_SYNCNOP, S_CMD_S_BUSTYPE, S_CMD_O_SPIOP,
   S_CMD_S_SPI_FREQ, S_CMD_S_PIN_STATE, S_CMD_S_SPI_CS]

/-- Whether the dispatcher has a handler for command byte `cmd`. -/
def dispatchHandled (cmd : Nat) : Bool := decide (cmd ∈ handledCmds)

/-- One iteration of command_loop (main.c lines 243-304): read one command
byte and dispatch.  Result: (state, input position, SPI-stream position,
bytes sent to the host).  `residW`/`residR` are the indeterminate
initial values of the spiop length variables for this iteration. -/
def commandStep (setBaud : Nat → Nat) (residW residR : Nat)
    (spiIn : Nat → Nat) (s : State) (inp : Nat → Nat) (pos spos : Nat) :
    State × Nat × Nat × List Nat :=
  if inp pos % 256 = S_CMD_NOP then (s, pos + 1, spos, [S_ACK])
  else if inp pos % 256 = S_CMD_Q_IFACE then (s, pos + 1, spos, [S_ACK, 0x01, 0x00])
  else if inp pos % 256 = S_CMD_Q_CMDMAP then (s, pos + 1, spos, S_ACK :: cmdmapBytes)
  else if inp pos % 256 = S_CMD_Q_PGMNAME then (s, pos + 1, spos, S_ACK :: prognameBytes)
  else if inp pos % 256 = S_CMD_Q_SERBUF then (s, pos + 1, spos, [S_ACK, 0xFF, 0xFF])
  else if inp pos % 256 = S_CMD_Q_BUSTYPE then (s, pos + 1, spos, [S_ACK, 1 <<< 3])
  else if inp pos % 256 = S_CMD_SYNCNOP then (s, pos + 1, spos, [S_NAK, S_ACK])
  else if inp pos % 256 = S_CMD_S_BUSTYPE then
    ((s_cmd_s_bustype s inp (pos + 1)).1, (s_cmd_s_bustype s inp (pos + 1)).2.1,
     spos, (s_cmd_s_bustype s inp (pos + 1)).2.2)
  else if inp pos % 256 = S_CMD_O_SPIOP then
    ((s_cmd_o_spiop residW residR spiIn s inp (pos + 1) spos).1,
     (s_cmd_o_spiop residW residR spiIn s inp (pos + 1) spos).2.1,
     (s_cmd_o_spiop residW residR spiIn s inp (pos + 1) spos).2.2.1,
     (s_cmd_o_spiop residW residR spiIn s inp (pos + 1) spos).2.2.2.1)
  else if inp pos % 256 = S_CMD_S_SPI_FREQ then
    ((s_cmd_s_spi_freq setBaud s inp (pos + 1)).1,
     (s_cmd_s_spi_freq setBaud s inp (pos + 1)).2.1,
     spos, (s_cmd_s_spi_freq setBaud s inp (pos + 1)).2.2)
  else if inp pos % 256 = S_CMD_S_PIN_STATE then
    ((s_cmd_s_pin_state s inp (pos + 1)).1, (s_cmd_s_pin_state s inp (pos + 1)).2.1,
     spos, (s_cmd_s_pin_state s inp (pos + 1)).2.2)
  else if inp pos % 256 = S_CMD_S_SPI_CS then
    ((s_cmd_s_spi_cs s inp (pos + 1)).1, (s_cmd_s_spi_cs s inp (pos + 1)).2.1,
     spos, (s_cmd_s_spi_cs s inp (pos + 1)).2.2)
  else (s, pos + 1, spos, [S_NAK])

/-- Run `n` iterations of command_loop.  `resid n` gives the
indeterminate spiop length residues of iteration `n`. -/
def runCmds (setBaud : Nat → Nat) (resid : Nat → Nat × Nat)
    (spiIn inp : Nat → Nat) : Nat → State × Nat × Nat → State × Nat × Nat
  | 0, t => t
  | n + 1, t =>
    let r := commandStep setBaud (resid n).1 (resid n).2 spiIn t.1 inp t.2.1 t.2.2
    runCmds setBaud resid spiIn inp n (r.1, r.2.1, r.2.2.1)

/-- The globals at C startup (main.c lines 29-33): bus disabled, default
chip select, 12 MHz.  The hardware reset GPIO configuration is the
parameter `g0`. -/
def initialState (g0 : Nat → Pin) : State :=
  { spi_enabled := 0, cs_pin := SPI_CS_0, baud := 12000000, gpio := g0 }

/-- main.c lines 306-327: main runs enable_spi on the startup globals
before entering command_loop (tusb_init and the binary-info metadata have
no session-state effect). -/
def startupState (g0 : Nat → Pin) : State := enable_spi (initialState g0)

/-- A neutral pad configuration used for concrete test states. -/
def resetPin : Pin :=
  { func := GpioFunc.sio, dir := GpioDir.dIn, value := false,
    pullUp := false, pullDown := false, drive := 4 }

/-- A concrete session state for closed instances: the startup globals
with all pads in the neutral configuration. -/
def st0 : State := initialState (fun _ => resetPin)

/-- The property claimed of enable() (following the spec's words, C4): the
active chip-select line ends as a driven output at logic high, and every
other candidate chip-select line ends as an input with pull-up enabled. -/
def enableCsSpec (s : State) : Prop :=
  ((enable_spi s).gpio s.cs_pin).dir = GpioDir.dOut ∧
  ((enable_spi s).gpio s.cs_pin).value = true ∧
  ∀ j, j < NUM_CS_AVAILABLE → SPI_CS_0 + j ≠ s.cs_pin →
    ((enable_spi s).gpio (SPI_CS_0 + j)).dir = GpioDir.dIn ∧
    ((enable_spi s).gpio (SPI_CS_0 + j)).pullUp = true

/-- A state whose recorded chip-select pin is the valid non-default
candidate SPI_CS_0 + 1 and whose pads are all in the neutral reset
configuration. -/
def cexState : State :=
  { spi_enabled := 0, cs_pin := SPI_CS_0 + 1, baud := 12000000,
    gpio := fun _ => resetPin }

/-- A concrete host input stream whose first four bytes are the
little-endian encoding of the value 1. -/
def W6inp : Nat → Nat := fun i => if i = 0 then 1 else 0

/-! Helper lemmas about the chunked transfer loops. -/

/-- The write phase advances the host input position by exactly `wlen`:
the chunking consumes precisely the declared number of bytes. -/
theorem spiWritePhase_fst (inp : Nat → Nat) (wlen : Nat) :
    ∀ pos, (spiWritePhase inp pos wlen).1 = pos + wlen := by
  induction wlen using Nat.strong_induction_on with
  | _ w ih =>
    intro pos
    unfold spiWritePhase
    split
    · next h => simp [h]
    · next h =>
      have hrec := ih (w - min w 4096) (by omega) (pos + min w 4096)
      simp only [hrec]
      omega

/-- The bytes the write phase puts on the SPI bus are exactly the `wlen`
stream bytes starting at `pos`, in order: chunking is transparent. -/
theorem spiWritePhase_snd (inp : Nat → Nat) (wlen : Nat) :
    ∀ pos, (spiWritePhase inp pos wlen).2
      = (List.range wlen).map (fun k => inp (pos + k) % 256) := by
  induction wlen using Nat.strong_induction_on with
  | _ w ih =>
    intro pos
    unfold spiWritePhase
    split
    · next h => simp [h]
    · next h =>
      have hrec := ih (w - min w 4096) (by omega) (pos + min w 4096)
      simp only [hrec]
      have hw : w = min w 4096 + (w - min w 4096) := by omega
      conv_rhs => rw [hw]
      rw [List.range_add, List.map_append, List.map_map]
      congr 1
      simp [Function.comp, Nat.add_assoc]

/-- The read phase advances the SPI input position by exactly `rlen`. -/
theorem spiReadPhase_fst (spiIn : Nat → Nat) (rlen : Nat) :
    ∀ spos, (spiReadPhase spiIn spos rlen).1 = spos + rlen := by
  induction rlen using Nat.strong_induction_on with
  | _ r ih =>
    intro spos
    unfold spiReadPhase
    split
    · next h => simp [h]
    · next h =>
      have hrec := ih (r - min r 4096) (by omega) (spos + min r 4096)
      simp only [hrec]
      omega

/-- The bytes the read phase sends to the host are exactly the `rlen` SPI
stream bytes starting at `spos`, in order: chunking is transparent. -/
theorem spiReadPhase_snd (spiIn : Nat → Nat) (rlen : Nat) :
    ∀ spos, (spiReadPhase spiIn spos rlen).2
      = (List.range rlen).map (fun k => spiIn (spos + k) % 256) := by
  induction rlen using Nat.strong_induction_on with
  | _ r ih =>
    intro spos
    unfold spiReadPhase
    split
    · next h => simp [h]
    · next h =>
      have hrec := ih (r - min r 4096) (by omega) (spos + min r 4096)
      simp only [hrec]
      have hr : r = min r 4096 + (r - min r 4096) := by omega
      conv_rhs => rw [hr]
      rw [List.range_add, List.map_append, List.map_map]
      congr 1
      simp [Function.comp, Nat.add_assoc]

/-- The input position after s_cmd_o_spiop: the 6 header bytes plus the
write length actually used (which contains the indeterminate upper
byte of the uninitialized wlen variable). -/
theorem s_cmd_o_spiop_inputPos (residW residR : Nat) (spiIn : Nat → Nat)
    (s : State) (inp : Nat → Nat) (pos spos : Nat) :
    (s_cmd_o_spiop residW residR spiIn s inp pos spos).2.1
      = pos + 6 + read3IntoUninit residW inp pos := by
  simp [s_cmd_o_spiop, spiWritePhase_fst]

/-- The bytes s_cmd_o_spiop sends to the host: one ACK, then exactly the
read-length-many SPI bytes (the read length containing the indeterminate
upper byte of the uninitialized rlen variable). -/
theorem s_cmd_o_spiop_out (residW residR : Nat) (spiIn : Nat → Nat)
    (s : State) (inp : Nat → Nat) (pos spos : Nat) :
    (s_cmd_o_spiop residW residR spiIn s inp pos spos).2.2.2.1
      = S_ACK :: (List.range (read3IntoUninit residR inp (pos + 3))).map
          (fun k => spiIn (spos + k) % 256) := by
  simp [s_cmd_o_spiop, spiReadPhase_snd]

/-- Each little-endian field is below 2^32. -/
theorem le32_lt (inp : Nat → Nat) (pos : Nat) : le32 inp pos < 4294967296 := by
  unfold le32 le24
  have h0 : inp pos % 256 < 256 := Nat.mod_lt _ (by decide)
  have h1 : inp (pos + 1) % 256 < 256 := Nat.mod_lt _ (by decide)
  have h2 : inp (pos + 2) % 256 < 256 := Nat.mod_lt _ (by decide)
  have h3 : inp (pos + 3) % 256 < 256 := Nat.mod_lt _ (by decide)
  omega

/-! Claims C1, C2, C3. -/

/-- C1 (code bug): a set-chip-select command with the valid index 1 sends
no byte at all (not one ACK) and leaves the recorded chip-select pin at
its previous value SPI_CS_0 (not SPI_CS_0 + 1): the return at main.c:229
is unconditional, so the update and the ACK at lines 231-239 never run. -/
theorem c1_spi_cs_dead_code :
    (1 < NUM_CS_AVAILABLE) ∧
    (s_cmd_s_spi_cs st0 (fun _ => 1) 0).2.2 = [] ∧
    (s_cmd_s_spi_cs st0 (fun _ => 1) 0).1.cs_pin = SPI_CS_0 := by
  refine ⟨by decide, by decide, rfl⟩

/-- C2 (code bug): with the indeterminate initial value 0x01000000 in the
uninitialized wlen variable and wire length bytes 00 00 00, the write
length used by the transaction is 16777216, not the 24-bit little-endian
value 0 — the upper byte of the 32-bit length variable is not zero. -/
theorem c2_uninit_length_upper_byte :
    le24 (fun _ => 0) 0 = 0 ∧
    read3IntoUninit 16777216 (fun _ => 0) 0 = 16777216 ∧
    (s_cmd_o_spiop 16777216 0 (fun _ => 0) st0 (fun _ => 0) 0 0).2.1
      = 0 + 6 + 16777216 := by
  refine ⟨by decide, by decide, ?_⟩
  rw [s_cmd_o_spiop_inputPos]
  decide

/-- C3 (code bug): with read-length wire bytes 00 00 00 (r = 0) but the
indeterminate initial value 0x01000000 in the uninitialized rlen
variable, the handler sends 1 + 16777216 bytes to the host (the ACK plus
2^24 read bytes) instead of exactly 1 + 0: the byte counts follow the
garbage-extended lengths, not the 24-bit wire values. -/
theorem c3_stream_count_mismatch :
    le24 (fun _ => 0) 3 = 0 ∧
    (s_cmd_o_spiop 0 16777216 (fun _ => 0) st0 (fun _ => 0) 0 0).2.2.2.1.length
      = 1 + 16777216 := by
  refine ⟨by decide, ?_⟩
  rw [s_cmd_o_spiop_out]
  generalize hG : read3IntoUninit 16777216 (fun _ => 0) (0 + 3) = N
  have hN : N = 16777216 := by
    rw [← hG]
    decide
  rw [List.length_cons, List.length_map, List.length_range]
  omega

/-! Claim C4: pin configuration after enable_spi. -/

/-- C4 (counterexample): for the valid recorded chip-select pin
SPI_CS_0 + 1, enable_spi does NOT leave every other candidate line as a
pulled-up input — the setup loop at main.c:73 always starts at
SPI_CS_0 + 1, so the default line SPI_CS_0 is never touched and keeps its
prior (here: pull-up disabled) configuration. -/
theorem c4_counterexample :
    cexState.cs_pin = SPI_CS_0 + 1 ∧ 1 < NUM_CS_AVAILABLE ∧ ¬ enableCsSpec cexState := by
  refine ⟨rfl, by decide, ?_⟩
  intro hspec
  have h5 := (hspec.2.2 0 (by decide) (by decide)).2
  revert h5
  decide

/-- C4 (amended): enable_spi drives the active chip-select line high as
an output and pulls up every other candidate line EXCEPT the default
line SPI_CS_0, which is reconfigured only when it is itself the active
line; when another line is active, SPI_CS_0 keeps its prior
configuration unchanged. -/
theorem c4_amended_enable (s : State) (i : Nat) (hi : i < NUM_CS_AVAILABLE)
    (hcs : s.cs_pin = SPI_CS_0 + i) :
    ((enable_spi s).gpio s.cs_pin).dir = GpioDir.dOut ∧
    ((enable_spi s).gpio s.cs_pin).value = true ∧
    (∀ j, j < NUM_CS_AVAILABLE → 0 < j → SPI_CS_0 + j ≠ s.cs_pin →
      ((enable_spi s).gpio (SPI_CS_0 + j)).dir = GpioDir.dIn ∧
      ((enable_spi s).gpio (SPI_CS_0 + j)).pullUp = true) ∧
    (s.cs_pin ≠ SPI_CS_0 → (enable_spi s).gpio SPI_CS_0 = s.gpio SPI_CS_0) := by
  have hlist : csOtherPins = [6, 7, 8] := rfl
  have hi4 : i < 4 := hi
  interval_cases i <;>
    refine ⟨?_, ?_, ?_, ?_⟩ <;>
      first
        | (simp [enable_spi, hlist, hcs, use_cs, pullup_cs, gpio_init,
                 gpio_put, gpio_set_dir, gpio_pull_up, gpio_set_function,
                 gpio_set_drive_strength, gpioUpdate, SPI_CS_0, SPI_MISO,
                 SPI_MOSI, SPI_SCK]
           done)
        | (intro j hj hj0 hne
           rw [hcs] at hne
           have hj4 : j < 4 := hj
           interval_cases j <;>
             first
               | exact absurd rfl hne
               | (constructor <;>
                   (simp [enable_spi, hlist, hcs, use_cs, pullup_cs,
                          gpio_init, gpio_put, gpio_set_dir, gpio_pull_up,
                          gpio_set_function, gpio_set_drive_strength,
                          gpioUpdate, SPI_CS_0, SPI_MISO, SPI_MOSI, SPI_SCK]
                    done)))
        | (intro hne
           rw [hcs] at hne
           first
             | exact absurd rfl hne
             | simp [enable_spi, hlist, hcs, use_cs, pullup_cs, gpio_init,
                     gpio_put, gpio_set_dir, gpio_pull_up, gpio_set_function,
                     gpio_set_drive_strength, gpioUpdate, SPI_CS_0, SPI_MISO,
                     SPI_MOSI, SPI_SCK])

/-- C4 (witness for the amended theorem): the amended property at the
concrete state cexState (active chip-select pin 6). -/
theorem c4_witness :
    ((enable_spi cexState).gpio cexState.cs_pin).dir = GpioDir.dOut ∧
    ((enable_spi cexState).gpio cexState.cs_pin).value = true ∧
    (∀ j, j < NUM_CS_AVAILABLE → 0 < j → SPI_CS_0 + j ≠ cexState.cs_pin →
      ((enable_spi cexState).gpio (SPI_CS_0 + j)).dir = GpioDir.dIn ∧
      ((enable_spi cexState).gpio (SPI_CS_0 + j)).pullUp = true) ∧
    (cexState.cs_pin ≠ SPI_CS_0 → (enable_spi cexState).gpio SPI_CS_0 = cexState.gpio SPI_CS_0) :=
  c4_amended_enable cexState 1 (by decide) rfl

/-! Claim C5: the recorded chip-select index stays valid forever. -/

/-- enable_spi does not change the recorded chip-select pin. -/
theorem enable_spi_cs_pin (s : State) : (enable_spi s).cs_pin = s.cs_pin := rfl

/-- disable_spi does not change the recorded chip-select pin. -/
theorem disable_spi_cs_pin (s : State) : (disable_spi s).cs_pin = s.cs_pin := rfl

/-- No command of the dispatcher changes the recorded chip-select pin:
in particular, the only writer (s_cmd_s_spi_cs, lines 231-239) is dead
code behind the unconditional return at main.c:229. -/
theorem commandStep_cs_pin (setBaud : Nat → Nat) (residW residR : Nat)
    (spiIn : Nat → Nat) (s : State) (inp : Nat → Nat) (pos spos : Nat) :
    (commandStep setBaud residW residR spiIn s inp pos spos).1.cs_pin = s.cs_pin := by
  unfold commandStep
  by_cases h1 : inp pos % 256 = S_CMD_NOP
  · rw [if_pos h1]
  rw [if_neg h1]
  by_cases h2 : inp pos % 256 = S_CMD_Q_IFACE
  · rw [if_pos h2]
  rw [if_neg h2]
  by_cases h3 : inp pos % 256 = S_CMD_Q_CMDMAP
  · rw [if_pos h3]
  rw [if_neg h3]
  by_cases h4 : inp pos % 256 = S_CMD_Q_PGMNAME
  · rw [if_pos h4]
  rw [if_neg h4]
  by_cases h5 : inp pos % 256 = S_CMD_Q_SERBUF
  · rw [if_pos h5]
  rw [if_neg h5]
  by_cases h6 : inp pos % 256 = S_CMD_Q_BUSTYPE
  · rw [if_pos h6]
  rw [if_neg h6]
  by_cases h7 : inp pos % 256 = S_CMD_SYNCNOP
  · rw [if_pos h7]
  rw [if_neg h7]
  by_cases h8 : inp pos % 256 = S_CMD_S_BUSTYPE
  · rw [if_pos h8]
    rfl
  rw [if_neg h8]
  by_cases h9 : inp pos % 256 = S_CMD_O_SPIOP
  · rw [if_pos h9]
    rfl
  rw [if_neg h9]
  by_cases h10 : inp pos % 256 = S_CMD_S_SPI_FREQ
  · rw [if_pos h10]
    unfold s_cmd_s_spi_freq
    by_cases hw : le32 inp (pos + 1) ≠ 0
    · rw [if_pos hw]
    rw [if_neg hw]
  rw [if_neg h10]
  by_cases h11 : inp pos % 256 = S_CMD_S_PIN_STATE
  · rw [if_pos h11]
    unfold s_cmd_s_pin_state
    by_cases hp : inp (pos + 1) % 256 ≠ 0
    · rw [if_pos hp]
      rfl
    rw [if_neg hp]
    rfl
  rw [if_neg h11]
  by_cases h12 : inp pos % 256 = S_CMD_S_SPI_CS
  · rw [if_pos h12]
    rfl
  rw [if_neg h12]

/-- Running any number of commands leaves the recorded chip-select pin
unchanged. -/
theorem runCmds_cs_pin (setBaud : Nat → Nat) (resid : Nat → Nat × Nat)
    (spiIn inp : Nat → Nat) (n : Nat) :
    ∀ t : State × Nat × Nat,
      (runCmds setBaud resid spiIn inp n t).1.cs_pin = t.1.cs_pin := by
  induction n with
  | zero => intro t; rfl
  | succ n ih =>
    intro t
    unfold runCmds
    rw [ih]
    exact commandStep_cs_pin setBaud (resid n).1 (resid n).2 spiIn t.1 inp t.2.1 t.2.2

/-- C5: in every state reachable from startup by any sequence of
commands (any collaborator behaviors, any host bytes, any indeterminate
spiop length residues), the recorded chip-select pin is a valid member of
the NUM_CS_AVAILABLE candidate lines — it is in fact always SPI_CS_0. -/
theorem c5_cs_invariant (setBaud : Nat → Nat) (resid : Nat → Nat × Nat)
    (spiIn inp : Nat → Nat) (g0 : Nat → Pin) (n : Nat) :
    SPI_CS_0 ≤ (runCmds setBaud resid spiIn inp n (startupState g0, 0, 0)).1.cs_pin ∧
    (runCmds setBaud resid spiIn inp n (startupState g0, 0, 0)).1.cs_pin
      < SPI_CS_0 + NUM_CS_AVAILABLE := by
  have h : (runCmds setBaud resid spiIn inp n (startupState g0, 0, 0)).1.cs_pin = SPI_CS_0 :=
    (runCmds_cs_pin setBaud resid spiIn inp n (startupState g0, 0, 0)).trans rfl
  rw [h]
  exact ⟨Nat.le_refl _, by decide⟩

/-! Claims C6, C7: the set-SPI-frequency command. -/

/-- C6: for a set-SPI-frequency command with requested little-endian value
f greater than 0, the handler sends one ACK followed by the four
little-endian bytes of the achieved frequency a, stores a as the
session's frequency, and (by the spec contract of the SDK clock divider,
here the hypotheses on setBaud) 0 < a and a ≤ f. -/
theorem c6_set_freq (setBaud : Nat → Nat) (s : State) (inp : Nat → Nat)
    (pos : Nat) (hf : 0 < le32 inp pos)
    (h1 : 0 < setBaud (le32 inp pos))
    (h2 : setBaud (le32 inp pos) ≤ le32 inp pos) :
    s_cmd_s_spi_freq setBaud s inp pos
        = ({ s with baud := setBaud (le32 inp pos) }, pos + 4,
           S_ACK :: le32Bytes (setBaud (le32 inp pos)))
      ∧ 0 < setBaud (le32 inp pos) ∧ setBaud (le32 inp pos) ≤ le32 inp pos := by
  have hm : setBaud (le32 inp pos) % 4294967296 = setBaud (le32 inp pos) :=
    Nat.mod_eq_of_lt (lt_of_le_of_lt h2 (le32_lt inp pos))
  refine ⟨?_, h1, h2⟩
  unfold s_cmd_s_spi_freq
  rw [if_pos (Nat.pos_iff_ne_zero.mp hf), hm]

/-- C6 (witness): requesting frequency 1 with the identity divider model
yields ACK, the bytes of 1, and stored frequency 1. -/
theorem c6_witness :
    s_cmd_s_spi_freq (fun n => n) st0 W6inp 0
        = ({ st0 with baud := le32 W6inp 0 }, 0 + 4, S_ACK :: le32Bytes (le32 W6inp 0))
      ∧ 0 < le32 W6inp 0 ∧ le32 W6inp 0 ≤ le32 W6inp 0 :=
  c6_set_freq (fun n => n) st0 W6inp 0 (by decide) (by decide) (by decide)

/-- C7: a set-SPI-frequency command whose 4-byte requested value is zero
sends exactly one NAK and leaves the whole session state (in particular
the stored frequency) unchanged. -/
theorem c7_zero_freq (setBaud : Nat → Nat) (s : State) (inp : Nat → Nat)
    (pos : Nat) (h : le32 inp pos = 0) :
    s_cmd_s_spi_freq setBaud s inp pos = (s, pos + 4, [S_NAK]) := by
  unfold s_cmd_s_spi_freq
  rw [if_neg (by simp [h])]

/-- C7 (witness): the zero request on a concrete state. -/
theorem c7_witness :
    s_cmd_s_spi_freq (fun n => n) st0 (fun _ => 0) 0 = (st0, 0 + 4, [S_NAK]) :=
  c7_zero_freq (fun n => n) st0 (fun _ => 0) 0 (by decide)

/-! Claim C8: the sync command. -/

/-- C8: a SYNCNOP command byte makes the dispatcher send exactly the
two-byte sequence NAK then ACK, with no other output and no state
change. -/
theorem c8_sync (setBaud : Nat → Nat) (residW residR : Nat)
    (spiIn : Nat → Nat) (s : State) (inp : Nat → Nat) (pos spos : Nat)
    (h : inp pos % 256 = S_CMD_SYNCNOP) :
    commandStep setBaud residW residR spiIn s inp pos spos
      = (s, pos + 1, spos, [S_NAK, S_ACK]) := by
  unfold commandStep
  rw [if_neg (by rw [h]; decide), if_neg (by rw [h]; decide),
      if_neg (by rw [h]; decide), if_neg (by rw [h]; decide),
      if_neg (by rw [h]; decide), if_neg (by rw [h]; decide), if_pos h]

/-- C8 (witness): the sync command on a concrete state and stream. -/
theorem c8_witness :
    commandStep (fun n => n) 0 0 (fun _ => 0) st0 (fun _ => 16) 0 0
      = (st0, 0 + 1, 0, [S_NAK, S_ACK]) :=
  c8_sync (fun n => n) 0 0 (fun _ => 0) st0 (fun _ => 16) 0 0 (by decide)

/-! Claim C9: the capability bitmap matches the dispatcher. -/

set_option maxRecDepth 16384 in
/-- C9: for every command byte value, the bit at its position in the
serialized capability bitmap is set exactly when the dispatcher has a
handler for it; and whenever the dispatcher has no handler, dispatching
that byte falls through to the generic single-NAK branch with no state
change. -/
theorem c9_cmdmap_matches :
    (∀ c : Fin 256, cmdmapBit c.val = dispatchHandled c.val) ∧
    (∀ (setBaud : Nat → Nat) (residW residR : Nat) (spiIn : Nat → Nat)
       (s : State) (inp : Nat → Nat) (pos spos : Nat),
       dispatchHandled (inp pos % 256) = false →
       commandStep setBaud residW residR spiIn s inp pos spos
         = (s, pos + 1, spos, [S_NAK])) := by
  constructor
  · decide
  · intro setBaud residW residR spiIn s inp pos spos h
    have h' : ¬ (inp pos % 256) ∈ handledCmds := of_decide_eq_false h
    simp only [handledCmds, List.mem_cons, List.not_mem_nil, or_false,
               not_or] at h'
    obtain ⟨n1, n2, n3, n4, n5, n6, n7, n8, n9, n10, n11, n12⟩ := h'
    unfold commandStep
    rw [if_neg n1, if_neg n2, if_neg n3, if_neg n4, if_neg n5, if_neg n6,
        if_neg n7, if_neg n8, if_neg n9, if_neg n10, if_neg n11, if_neg n12]

/-- C9 (witness): byte 0x06 (S_CMD_Q_CHIPSIZE) has no handler and gets a
single NAK. -/
theorem c9_witness :
    dispatchHandled 6 = false ∧
    commandStep (fun n => n) 0 0 (fun _ => 0) st0 (fun _ => 6) 0 0
      = (st0, 0 + 1, 0, [S_NAK]) :=
  ⟨by decide,
   c9_cmdmap_matches.2 (fun n => n) 0 0 (fun _ => 0) st0 (fun _ => 6) 0 0 (by decide)⟩

/-! Claim C10: the bus is already enabled at startup. -/

/-- C10: the state in which command_loop starts is enable_spi applied to
the C-startup globals: the bus enabled flag is set, the recorded
chip-select pin is the default SPI_CS_0, and the stored frequency is
the default 12 MHz — so a first SPI-operation command already runs
against an enabled bus. -/
theorem c10_startup_enabled (g0 : Nat → Pin) :
    (startupState g0).spi_enabled = 1 ∧
    (startupState g0).cs_pin = SPI_CS_0 ∧
    (startupState g0).baud = 12000000 :=
  ⟨rfl, rfl, rfl⟩

end PicoSerprog
